import Mathlib

/-!
# Verification of the SMART CVD risk-reduction calculator

Shallow embedding of the computational core of the repository
(`app_final_wizard.py` and `app_final_wizard1.0.py`): the 10-year /
5-year / lifetime risk formulas, the multiplicative LDL-projection model
with its 1.8 mmol/L advanced-therapy gate, the ARR/RRR/NNT secondary
metrics, the CSV export, and the wiring of the `vasc` argument.

Real-valued arithmetic of the Python code is modelled over `ℝ`
(idealised real arithmetic); the purely rational LDL-projection and
gating layer is modelled over `ℚ` so that it stays executable.
Integer-valued UI inputs (age, SBP, eGFR, vascular count) are `ℕ`.
-/

open Real

/-- Function `estimate_10y` from `app_final_wizard.py` (lines 51-59): linear predictor
over the covariates, transformed by `1 - 0.9 ^ exp(lp - 5.8)` and capped
at 95%.  `sex` is the literal UI string, `smoker`/`dm` are the checkbox
booleans, `vasc` the integer count passed by the caller. -/
noncomputable def estimate_10y (age : ℕ) (sex : String) (sbp : ℕ) (tc hdl : ℝ)
    (smoker dm : Bool) (egfr : ℕ) (crp : ℝ) (vasc : ℕ) : ℝ :=
  let sex_v : ℝ := if sex = "Male" then 1 else 0
  let sm_v : ℝ := if smoker then 1 else 0
  let dm_v : ℝ := if dm then 1 else 0
  let crp_l : ℝ := Real.log (crp + 1)
  let lp : ℝ := 0.064 * (age : ℝ) + 0.34 * sex_v + 0.02 * (sbp : ℝ) + 0.25 * tc - 0.25 * hdl
      + 0.44 * sm_v + 0.51 * dm_v - 0.2 * ((egfr : ℝ) / 10) + 0.25 * crp_l + 0.4 * (vasc : ℝ)
  let raw : ℝ := 1 - (0.900 : ℝ) ^ Real.exp (lp - 5.8)
  min (raw * 100) 95.0

/-- Function `estimate_10y_risk` from `app_final_wizard1.0.py` (lines 71-80); textually
the same formula as `estimate_10y` in the other variant. -/
noncomputable def estimate_10y_risk (age : ℕ) (sex : String) (sbp : ℕ) (tc hdl : ℝ)
    (smoker diabetes : Bool) (egfr : ℕ) (crp : ℝ) (vasc : ℕ) : ℝ :=
  let sex_v : ℝ := if sex = "Male" then 1 else 0
  let sm_v : ℝ := if smoker then 1 else 0
  let dm_v : ℝ := if diabetes then 1 else 0
  let crp_l : ℝ := Real.log (crp + 1)
  let lp : ℝ := 0.064 * (age : ℝ) + 0.34 * sex_v + 0.02 * (sbp : ℝ) + 0.25 * tc
      - 0.25 * hdl + 0.44 * sm_v + 0.51 * dm_v
      - 0.2 * ((egfr : ℝ) / 10) + 0.25 * crp_l + 0.4 * (vasc : ℝ)
  let raw : ℝ := 1 - (0.900 : ℝ) ^ Real.exp (lp - 5.8)
  min (raw * 100) 95.0

/-- Function `convert_5yr` from `app_final_wizard.py` (lines 61-63): square-root-of-
survival transform of the 95-capped 10-year risk. -/
noncomputable def convert_5yr (r10 : ℝ) : ℝ :=
  let p : ℝ := min r10 95.0 / 100
  min ((1 - (1 - p) ^ (0.5 : ℝ)) * 100) 95.0

/-- Function `estimate_lt` from `app_final_wizard.py` (lines 65-69): implied constant
annual hazard from the 10-year risk, compounded over `max (85 - age) 0`
years (here `ℕ` subtraction is exactly the `max(85-age,0)` of the code). -/
noncomputable def estimate_lt (age : ℕ) (r10 : ℝ) : ℝ :=
  let years : ℕ := 85 - age
  let p10 : ℝ := min r10 95.0 / 100
  let annual : ℝ := 1 - (1 - p10) ^ ((1 : ℝ) / 10)
  min ((1 - (1 - annual) ^ years) * 100) 95.0

/-- The results step of `app_final_wizard.py` (line 147): the lifetime
estimate is produced only for `age < 85`, otherwise it is `None`. -/
noncomputable def lt_result (age : ℕ) (r10 : ℝ) : Option ℝ :=
  if age < 85 then some (estimate_lt age r10) else none

/-- ARR/RRR/NNT block of `app_final_wizard.py` (lines 154-157): `none` when
the lifetime estimate is absent; otherwise `arr = r10 - lt`,
`rrr = arr / r10 * 100` guarded by Python truthiness of `r10`, and
`nnt = 100 / arr` guarded by truthiness of `arr` (`None` when `arr == 0`). -/
noncomputable def secondaryMetrics (r10 : ℝ) (lt : Option ℝ) : Option (ℝ × ℝ × Option ℝ) :=
  match lt with
  | none => none
  | some l =>
    let arr : ℝ := r10 - l
    let rrr : ℝ := if r10 ≠ 0 then arr / r10 * 100 else 0
    let nnt : Option ℝ := if arr ≠ 0 then some (100 / arr) else none
    some (arr, rrr, nnt)

/-- Efficacy dictionary `E` of `app_final_wizard1.0.py` (lines 135-139),
with the `E.get(t, 0)` default of line 158 for unknown names. -/
def E (t : String) : ℚ :=
  if t = "Simvastatin 20 mg" then 0.1
  else if t = "Simvastatin 40 mg" then 0.2
  else if t = "Atorvastatin 10 mg" then 0.3
  else if t = "Atorvastatin 80 mg" then 0.5
  else if t = "Rosuvastatin 5 mg" then 0.25
  else if t = "Rosuvastatin 20 mg" then 0.55
  else if t = "Ezetimibe 10 mg" then 0.2
  else if t = "Bempedoic acid" then 0.18
  else if t = "PCSK9 inhibitor" then 0.6
  else if t = "siRNA" then 0.55
  else 0

/-- LDL projection of `app_final_wizard1.0.py` (lines 156-159): starting from
the baseline, multiply by `(1 - E t)` for each selected therapy in order,
then floor at 0.5 mmol/L. -/
def post_ldl (ldl : ℚ) (therapies : List String) : ℚ :=
  max (therapies.foldl (fun acc t => acc * (1 - E t)) ldl) 0.5

/-- Flag `pcsk9_allowed` of `app_final_wizard1.0.py` (line 161). -/
def pcsk9_allowed (post : ℚ) : Bool := post > 1.8

/-- Flag `sirna_allowed` of `app_final_wizard1.0.py` (line 162). -/
def sirna_allowed (post : ℚ) : Bool := post > 1.8

/-- The `disabled` flag of the PCSK9 checkbox in `app_final_wizard.py`
(line 133): `disabled=(post_ldl<=1.8)`. -/
def pcsk9_disabled (post : ℚ) : Bool := post ≤ 1.8

/-- The `disabled` flag of the Inclisiran checkbox in `app_final_wizard.py`
(line 134): `disabled=(post_ldl<=1.8)`. -/
def inclis_disabled (post : ℚ) : Bool := post ≤ 1.8

/-- One-decimal rendering modelling the Python format spec `.1f` used by
the CSV f-strings of both variants: round to tenths, print the integral
part, a dot, and the single tenths digit. -/
def fmt1dec (x : ℚ) : String :=
  let n : ℤ := round (x * 10)
  let m : ℕ := n.natAbs
  (if n < 0 then "-" else "") ++ toString (m / 10) ++ "." ++ toString (m % 10)

/-- CSV export of `app_final_wizard.py` (lines 162-165): the header write,
the combined 5-year/10-year write, and the conditional lifetime write. -/
def csv_export (r5 r10 : ℚ) (lt : Option ℚ) : String :=
  "metric,value\x0A"
    ++ ("5yr," ++ fmt1dec r5 ++ "\x0A" ++ ("10yr," ++ fmt1dec r10 ++ "\x0A"))
    ++ (match lt with
        | some l => "lifetime," ++ fmt1dec l ++ "\x0A"
        | none => "")

/-- Module-level names bound in `app_final_wizard.py`: the imports
(lines 2-5), the two step handlers, `TRIALS`, the four risk/format
functions, the `defaults` loop variables, and the assignments inside the
four `with st.expander` blocks (which in Python run at module level).
`calculate_ldl_projection` is not among them. -/
def wizardTopLevelNames : List String :=
  ["st", "os", "math", "StringIO", "next_step", "prev_step", "TRIALS",
   "estimate_10y", "convert_5yr", "estimate_lt", "fmt", "defaults", "key",
   "val", "bmi", "pre_list", "new_list", "post_ldl", "vasc", "r10", "r5",
   "lt", "data", "arr", "rrr", "nnt", "csv"]

/-- Lookup of the name `calculate_ldl_projection` when line 132 of
`app_final_wizard.py` executes: the file never defines or imports such a
function, so the lookup yields nothing. -/
def calculate_ldl_projection_lookup : Option (ℚ → List String → List String → ℚ) :=
  none

/-- List `pre_list` of `app_final_wizard.py` (lines 126-128). -/
def pre_list (pre_stat : String) (pre_ez pre_bemp : Bool) : List String :=
  ((if pre_stat ≠ "None" then [pre_stat] else [])
      ++ (if pre_ez then ["Ezetimibe"] else []))
    ++ (if pre_bemp then ["Bempedoic"] else [])

/-- List `new_list` of `app_final_wizard.py` (lines 129-131). -/
def new_list (new_stat : String) (new_ez new_bemp : Bool) : List String :=
  ((if new_stat ≠ "None" then [new_stat] else [])
      ++ (if new_ez then ["Ezetimibe"] else []))
    ++ (if new_bemp then ["Bempedoic"] else [])

/-- Evaluation of line 132 of `app_final_wizard.py`
(`post_ldl = calculate_ldl_projection(...)`): Python resolves the callee
name at call time, and an unresolved name raises `NameError` before any
value is produced. -/
def step3_post_ldl (ldl : ℚ) (preL newL : List String) : Except String ℚ :=
  match calculate_ldl_projection_lookup with
  | some f => Except.ok (f ldl preL newL)
  | none => Except.error "NameError: name calculate_ldl_projection is not defined"

/-- Lines 132-134 of `app_final_wizard.py`: the projected LDL followed by
the two gated checkboxes with their `disabled` flags; the gating runs only
if line 132 produced a value. -/
def step3_checkboxes (ldl : ℚ) (pre_stat : String) (pre_ez pre_bemp : Bool)
    (new_stat : String) (new_ez new_bemp : Bool) : Except String (Bool × Bool) :=
  match step3_post_ldl ldl (pre_list pre_stat pre_ez pre_bemp)
      (new_list new_stat new_ez new_bemp) with
  | Except.ok post => Except.ok (pcsk9_disabled post, inclis_disabled post)
  | Except.error e => Except.error e

/-- Line 142 of `app_final_wizard.py`: the value passed as `vasc` to
`estimate_10y` — the length of the truthy-filtered list over the three
pre-admission therapy indicators. -/
def vasc (pre_stat : String) (pre_ez pre_bemp : Bool) : ℕ :=
  (List.filter (fun x => x) [decide (pre_stat ≠ "None"), pre_ez, pre_bemp]).length

/-- Refinement reference, following the words of the claim, for comparison
with `vasc`: the number of
pre-admission lipid-lowering therapy selections (a statin other than
"None", the ezetimibe flag, the bempedoic flag). -/
def preTherapyCount (pre_stat : String) (pre_ez pre_bemp : Bool) : ℕ :=
  (if pre_stat ≠ "None" then 1 else 0) + (if pre_ez then 1 else 0)
    + (if pre_bemp then 1 else 0)

/-- Count `vasc_count` of `app_final_wizard1.0.py` (lines 64-67): the number of
ticked vascular-territory checkboxes (absent from the other variant). -/
def vasc_count (vasc_cor vasc_cer vasc_per : Bool) : ℕ :=
  vasc_cor.toNat + vasc_cer.toNat + vasc_per.toNat

/-- Keys of the `defaults` session-state dictionary of
`app_final_wizard.py` (lines 75-83): every persisted input field of this
variant; no vascular-territory field occurs. -/
def wizardDefaultKeys : List String :=
  ["age", "sex", "weight", "height", "smoker", "diabetes", "egfr", "tc",
   "hdl", "ldl", "crp", "hba1c", "tg", "pre_stat", "pre_ez", "pre_bemp",
   "new_stat", "new_ez", "new_bemp", "sbp"]

lemma E_nonneg (t : String) : 0 ≤ E t := by
  unfold E; split_ifs <;> norm_num

lemma E_le_one (t : String) : E t ≤ 1 := by
  unfold E; split_ifs <;> norm_num

lemma post_ldl_foldl_eq_prod (ldl : ℚ) (ts : List String) :
    ts.foldl (fun acc t => acc * (1 - E t)) ldl
      = ldl * (ts.map (fun t => 1 - E t)).prod := by
  induction ts generalizing ldl with
  | nil => simp
  | cons h t ih => simp [List.foldl_cons, ih, mul_assoc]

lemma discount_prod_nonneg (ts : List String) :
    0 ≤ (ts.map (fun t => 1 - E t)).prod := by
  induction ts with
  | nil => simp
  | cons h t ih =>
    simp only [List.map_cons, List.prod_cons]
    exact mul_nonneg (by linarith [E_le_one h]) ih

lemma discount_prod_le_one (ts : List String) :
    (ts.map (fun t => 1 - E t)).prod ≤ 1 := by
  induction ts with
  | nil => simp
  | cons h t ih =>
    simp only [List.map_cons, List.prod_cons]
    calc (1 - E h) * (t.map (fun t => 1 - E t)).prod
        ≤ 1 * 1 := by
          apply mul_le_mul (by linarith [E_nonneg h]) ih (discount_prod_nonneg t) one_pos.le
      _ = 1 := by ring

lemma cap_formula_nonneg (x : ℝ) :
    0 ≤ min ((1 - (0.900 : ℝ) ^ Real.exp x) * 100) 95.0 := by
  refine le_min ?_ (by norm_num)
  have h1 : (0.900 : ℝ) ^ Real.exp x ≤ 1 :=
    Real.rpow_le_one (by norm_num) (by norm_num) (Real.exp_nonneg _)
  nlinarith

lemma estimate_10y_nonneg (age : ℕ) (sex : String) (sbp : ℕ) (tc hdl : ℝ)
    (smoker dm : Bool) (egfr : ℕ) (crp : ℝ) (vasc : ℕ) :
    0 ≤ estimate_10y age sex sbp tc hdl smoker dm egfr crp vasc :=
  cap_formula_nonneg _

lemma estimate_10y_le (age : ℕ) (sex : String) (sbp : ℕ) (tc hdl : ℝ)
    (smoker dm : Bool) (egfr : ℕ) (crp : ℝ) (vasc : ℕ) :
    estimate_10y age sex sbp tc hdl smoker dm egfr crp vasc ≤ 95 :=
  le_trans (min_le_right _ _) (by norm_num)

lemma min95_nonneg {r10 : ℝ} (h : 0 ≤ r10) : 0 ≤ min r10 95.0 / 100 :=
  div_nonneg (le_min h (by norm_num)) (by norm_num)

lemma min95_le_one (r10 : ℝ) : min r10 95.0 / 100 ≤ 1 := by
  have : min r10 95.0 ≤ 95.0 := min_le_right _ _
  linarith

lemma convert_5yr_nonneg {r10 : ℝ} (h : 0 ≤ r10) : 0 ≤ convert_5yr r10 := by
  show 0 ≤ min ((1 - (1 - min r10 95.0 / 100) ^ (0.5 : ℝ)) * 100) 95.0
  refine le_min ?_ (by norm_num)
  have h1 : (1 - min r10 95.0 / 100) ^ (0.5 : ℝ) ≤ 1 :=
    Real.rpow_le_one (by linarith [min95_le_one r10]) (by linarith [min95_nonneg h])
      (by norm_num)
  nlinarith

lemma convert_5yr_le (r10 : ℝ) : convert_5yr r10 ≤ 95 := by
  show min ((1 - (1 - min r10 95.0 / 100) ^ (0.5 : ℝ)) * 100) 95.0 ≤ 95
  exact le_trans (min_le_right _ _) (by norm_num)

lemma estimate_lt_nonneg (age : ℕ) {r10 : ℝ} (h : 0 ≤ r10) :
    0 ≤ estimate_lt age r10 := by
  show 0 ≤ min ((1 - (1 - (1 - (1 - min r10 95.0 / 100) ^ ((1 : ℝ) / 10))) ^ (85 - age))
      * 100) 95.0
  refine le_min ?_ (by norm_num)
  have hb0 : 0 ≤ (1 - min r10 95.0 / 100) ^ ((1 : ℝ) / 10) :=
    Real.rpow_nonneg (by linarith [min95_le_one r10]) _
  have hb1 : (1 - min r10 95.0 / 100) ^ ((1 : ℝ) / 10) ≤ 1 :=
    Real.rpow_le_one (by linarith [min95_le_one r10]) (by linarith [min95_nonneg h])
      (by norm_num)
  have hq : (1 - (1 - (1 - min r10 95.0 / 100) ^ ((1 : ℝ) / 10))) ^ (85 - age) ≤ 1 :=
    pow_le_one₀ (by linarith) (by linarith)
  nlinarith

lemma estimate_lt_le (age : ℕ) (r10 : ℝ) : estimate_lt age r10 ≤ 95 := by
  show min ((1 - (1 - (1 - (1 - min r10 95.0 / 100) ^ ((1 : ℝ) / 10))) ^ (85 - age))
      * 100) 95.0 ≤ 95
  exact le_trans (min_le_right _ _) (by norm_num)

/-- C1: the 10-year risk function computes the claimed linear predictor,
returns `min ((1 - 0.9 ^ exp (lp - 5.8)) * 100) 95`, and is deterministic
(illustrated at the example input given by the spec). -/
theorem c1_estimate_10y_formula_deterministic (age : ℕ) (sex : String) (sbp : ℕ)
    (tc hdl : ℝ) (smoker dm : Bool) (egfr : ℕ) (crp : ℝ) (vasc : ℕ) :
    estimate_10y age sex sbp tc hdl smoker dm egfr crp vasc
      = min ((1 - (0.900 : ℝ) ^ Real.exp
          ((0.064 * (age : ℝ) + 0.34 * (if sex = "Male" then 1 else 0)
            + 0.02 * (sbp : ℝ) + 0.25 * tc - 0.25 * hdl
            + 0.44 * (if smoker then 1 else 0) + 0.51 * (if dm then 1 else 0)
            - 0.2 * ((egfr : ℝ) / 10) + 0.25 * Real.log (crp + 1)
            + 0.4 * (vasc : ℝ)) - 5.8)) * 100) 95.0
    ∧ estimate_10y_risk age sex sbp tc hdl smoker dm egfr crp vasc
      = estimate_10y age sex sbp tc hdl smoker dm egfr crp vasc
    ∧ estimate_10y 60 "Male" 140 5.2 1.3 false false 90 2.5 0
      = estimate_10y 60 "Male" 140 5.2 1.3 false false 90 2.5 0 := by
  exact ⟨rfl, rfl, rfl⟩

/-- C7: the 5-year estimate is exactly the square-root-of-survival transform
of the 95-capped 10-year risk. -/
theorem c7_convert_5yr_formula (r10 : ℝ) :
    convert_5yr r10 = min ((1 - (1 - min r10 95.0 / 100) ^ (0.5 : ℝ)) * 100) 95.0 := rfl

/-- C3: the projected LDL is the baseline times the product of the
`(1 - reduction)` discounts of the selected therapies, floored at 0.5;
it never increases when further therapies are appended to the selection,
and it is never below 0.5. -/
theorem c3_ldl_projection_monotone_floored (ldl : ℚ) (ts extra : List String)
    (h : 0 ≤ ldl) :
    post_ldl ldl ts = max (ldl * (ts.map (fun t => 1 - E t)).prod) 0.5
    ∧ post_ldl ldl (ts ++ extra) ≤ post_ldl ldl ts
    ∧ 0.5 ≤ post_ldl ldl ts := by
  refine ⟨by rw [post_ldl, post_ldl_foldl_eq_prod], ?_, le_max_right _ _⟩
  unfold post_ldl
  rw [post_ldl_foldl_eq_prod, post_ldl_foldl_eq_prod]
  apply max_le_max _ le_rfl
  rw [List.map_append, List.prod_append, ← mul_assoc]
  calc ldl * (ts.map (fun t => 1 - E t)).prod * (extra.map (fun t => 1 - E t)).prod
      ≤ ldl * (ts.map (fun t => 1 - E t)).prod * 1 := by
        apply mul_le_mul_of_nonneg_left (discount_prod_le_one extra)
        exact mul_nonneg h (discount_prod_nonneg ts)
    _ = ldl * (ts.map (fun t => 1 - E t)).prod := by ring

theorem c3_witness :
    0 ≤ (3 : ℚ)
    ∧ (post_ldl 3 ["Atorvastatin 80 mg"]
        = max ((3 : ℚ) * ((["Atorvastatin 80 mg"].map (fun t => 1 - E t)).prod)) 0.5
      ∧ post_ldl 3 (["Atorvastatin 80 mg"] ++ ["Ezetimibe 10 mg"])
          ≤ post_ldl 3 ["Atorvastatin 80 mg"]
      ∧ 0.5 ≤ post_ldl 3 ["Atorvastatin 80 mg"]) :=
  ⟨by norm_num, c3_ldl_projection_monotone_floored 3 _ _ (by norm_num)⟩

/-- C4: the advanced-therapy options are selectable exactly when the
projected LDL strictly exceeds 1.8 mmol/L; at 1.8 itself they are not
selectable (the `disabled` flags of the `wizard.py` variant and the
`allowed` flags of the `wizard1.0` variant agree on this boundary). -/
theorem c4_advanced_therapy_gate (post : ℚ) :
    (pcsk9_allowed post = true ↔ 1.8 < post)
    ∧ (sirna_allowed post = true ↔ 1.8 < post)
    ∧ (pcsk9_disabled post = false ↔ 1.8 < post)
    ∧ (inclis_disabled post = false ↔ 1.8 < post)
    ∧ pcsk9_allowed 1.8 = false ∧ sirna_allowed 1.8 = false
    ∧ pcsk9_disabled 1.8 = true ∧ inclis_disabled 1.8 = true := by
  refine ⟨?_, ?_, ?_, ?_, ?_, ?_, ?_, ?_⟩ <;>
    simp [pcsk9_allowed, sirna_allowed, pcsk9_disabled, inclis_disabled,
      decide_eq_true_eq, not_le]

/-- C2: within the UI-enforced input ranges, the 10-year, 5-year and
lifetime risk outputs all lie in the closed interval `[0, 95]`. -/
theorem c2_outputs_in_range (age : ℕ) (sex : String) (sbp : ℕ) (tc hdl : ℝ)
    (smoker dm : Bool) (egfr : ℕ) (crp : ℝ) (vasc : ℕ)
    (hage : 30 ≤ age ∧ age ≤ 90) (hsbp : 80 ≤ sbp ∧ sbp ≤ 220)
    (htc : 2 ≤ tc ∧ tc ≤ 10) (hhdl : 0.5 ≤ hdl ∧ hdl ≤ 3)
    (hegfr : 15 ≤ egfr ∧ egfr ≤ 120) (hcrp : 0.1 ≤ crp ∧ crp ≤ 20)
    (hvasc : vasc ≤ 3) :
    0 ≤ estimate_10y age sex sbp tc hdl smoker dm egfr crp vasc
    ∧ estimate_10y age sex sbp tc hdl smoker dm egfr crp vasc ≤ 95
    ∧ 0 ≤ convert_5yr (estimate_10y age sex sbp tc hdl smoker dm egfr crp vasc)
    ∧ convert_5yr (estimate_10y age sex sbp tc hdl smoker dm egfr crp vasc) ≤ 95
    ∧ 0 ≤ estimate_lt age (estimate_10y age sex sbp tc hdl smoker dm egfr crp vasc)
    ∧ estimate_lt age (estimate_10y age sex sbp tc hdl smoker dm egfr crp vasc) ≤ 95 := by
  have h0 := estimate_10y_nonneg age sex sbp tc hdl smoker dm egfr crp vasc
  exact ⟨h0, estimate_10y_le age sex sbp tc hdl smoker dm egfr crp vasc,
    convert_5yr_nonneg h0, convert_5yr_le _,
    estimate_lt_nonneg age h0, estimate_lt_le age _⟩

theorem c2_witness :
    ((30 ≤ 60 ∧ 60 ≤ 90) ∧ (80 ≤ 140 ∧ 140 ≤ 220)
      ∧ ((2 : ℝ) ≤ 5.2 ∧ (5.2 : ℝ) ≤ 10) ∧ ((0.5 : ℝ) ≤ 1.3 ∧ (1.3 : ℝ) ≤ 3)
      ∧ (15 ≤ 90 ∧ 90 ≤ 120) ∧ ((0.1 : ℝ) ≤ 2.5 ∧ (2.5 : ℝ) ≤ 20) ∧ (0 : ℕ) ≤ 3)
    ∧ (0 ≤ estimate_10y 60 "Male" 140 5.2 1.3 false false 90 2.5 0
      ∧ estimate_10y 60 "Male" 140 5.2 1.3 false false 90 2.5 0 ≤ 95
      ∧ 0 ≤ convert_5yr (estimate_10y 60 "Male" 140 5.2 1.3 false false 90 2.5 0)
      ∧ convert_5yr (estimate_10y 60 "Male" 140 5.2 1.3 false false 90 2.5 0) ≤ 95
      ∧ 0 ≤ estimate_lt 60 (estimate_10y 60 "Male" 140 5.2 1.3 false false 90 2.5 0)
      ∧ estimate_lt 60 (estimate_10y 60 "Male" 140 5.2 1.3 false false 90 2.5 0) ≤ 95) :=
  ⟨⟨⟨by norm_num, by norm_num⟩, ⟨by norm_num, by norm_num⟩, ⟨by norm_num, by norm_num⟩,
    ⟨by norm_num, by norm_num⟩, ⟨by norm_num, by norm_num⟩, ⟨by norm_num, by norm_num⟩,
    by norm_num⟩,
   c2_outputs_in_range 60 "Male" 140 5.2 1.3 false false 90 2.5 0
    ⟨by norm_num, by norm_num⟩ ⟨by norm_num, by norm_num⟩ ⟨by norm_num, by norm_num⟩
    ⟨by norm_num, by norm_num⟩ ⟨by norm_num, by norm_num⟩ ⟨by norm_num, by norm_num⟩
    (by norm_num)⟩

/-- C6: the lifetime estimate exists exactly when `age < 85`; when it exists
and the 10-year risk is the (95-capped) output of the 10-year model, it is
the implied-annual-hazard compounding
`min ((1 - (1 - (1 - (1 - r10/100) ^ (1/10))) ^ (85 - age)) * 100) 95`. -/
theorem c6_lifetime_presence_formula (age : ℕ) (r10 : ℝ) :
    ((lt_result age r10).isSome ↔ age < 85)
    ∧ (age < 85 → r10 ≤ 95 →
        lt_result age r10
          = some (min ((1 - (1 - (1 - (1 - r10 / 100) ^ ((1 : ℝ) / 10))) ^ (85 - age))
              * 100) 95.0)) := by
  constructor
  · unfold lt_result
    split <;> simp [*]
  · intro h h95
    have hmin : min r10 95.0 = r10 := min_eq_left (by norm_num; exact h95)
    unfold lt_result estimate_lt
    rw [if_pos h, hmin]

theorem c6_witness :
    60 < 85 ∧ (10 : ℝ) ≤ 95
    ∧ lt_result 60 10
        = some (min ((1 - (1 - (1 - (1 - (10 : ℝ) / 100) ^ ((1 : ℝ) / 10))) ^ (25 : ℕ))
            * 100) 95.0) :=
  ⟨by norm_num, by norm_num,
    (c6_lifetime_presence_formula 60 10).2 (by norm_num) (by norm_num)⟩

/-- C5 counterexample: at `r10 = 10` with lifetime estimate `10` the absolute
risk reduction is zero, yet the code still produces ARR (= 0) and RRR (= 0);
only NNT becomes `None`.  This refutes the claim that each of ARR, RRR and
NNT is undefined / shown as not applicable whenever ARR is zero. -/
theorem c5_counterexample :
    secondaryMetrics 10 (some 10) = some (0, 0, none) := by
  norm_num [secondaryMetrics]

/-- C5 (amended): the whole ARR/RRR/NNT block is absent exactly when the
lifetime estimate is absent (age ≥ 85); when the lifetime estimate exists,
ARR = r10 − lt and RRR = ARR / r10 × 100 (0 when r10 = 0) are always
produced, and only NNT = 100 / ARR is `None` — exactly when ARR = 0. -/
theorem c5_amended_secondary_metrics (r10 l : ℝ) :
    secondaryMetrics r10 none = none
    ∧ secondaryMetrics r10 (some l)
        = some (r10 - l, if r10 ≠ 0 then (r10 - l) / r10 * 100 else 0,
            if r10 - l ≠ 0 then some (100 / (r10 - l)) else none)
    ∧ (((secondaryMetrics r10 (some l)).bind fun m => m.2.2).isSome = true
        ↔ r10 - l ≠ 0) := by
  refine ⟨rfl, rfl, ?_⟩
  by_cases h : r10 - l = 0 <;> simp [secondaryMetrics, h]

lemma fmt1dec_one_decimal (x : ℚ) :
    ∃ a : String, ∃ d : ℕ, d < 10 ∧ fmt1dec x = a ++ "." ++ toString d
      ∧ (toString d).length = 1 := by
  refine ⟨(if round (x * 10) < 0 then "-" else "")
      ++ toString ((round (x * 10)).natAbs / 10),
    (round (x * 10)).natAbs % 10, Nat.mod_lt _ (by norm_num), rfl, ?_⟩
  have hk : (round (x * 10)).natAbs % 10 < 10 := Nat.mod_lt _ (by norm_num)
  set k := (round (x * 10)).natAbs % 10 with hkdef
  clear_value k
  interval_cases k <;> rfl

/-- C8: the exported CSV is the header line followed by `metric,value` rows
in the order 5yr then 10yr, with a lifetime row exactly when the lifetime
estimate is present; every value is printed with exactly one digit after
the decimal point. -/
theorem c8_csv_layout (r5 r10 : ℚ) (lt : Option ℚ) :
    csv_export r5 r10 lt
      = String.intercalate "\x0A"
          (["metric,value", "5yr," ++ fmt1dec r5, "10yr," ++ fmt1dec r10]
            ++ (match lt with | some l => ["lifetime," ++ fmt1dec l] | none => []))
        ++ "\x0A"
    ∧ (∀ x : ℚ, ∃ a : String, ∃ d : ℕ, d < 10 ∧ fmt1dec x = a ++ "." ++ toString d
        ∧ (toString d).length = 1) := by
  refine ⟨?_, fun x => fmt1dec_one_decimal x⟩
  cases lt <;>
    simp [csv_export, String.intercalate, String.intercalate.go, String.append_assoc]

/-- C9: `app_final_wizard.py` binds the name `calculate_ldl_projection`
nowhere, so for every baseline LDL and every therapy selection the
therapies step fails with a `NameError` and never yields the
PCSK9/Inclisiran `disabled` flags. -/
theorem c9_ldl_projection_undefined (ldl : ℚ) (pre_stat : String)
    (pre_ez pre_bemp : Bool) (new_stat : String) (new_ez new_bemp : Bool) :
    step3_checkboxes ldl pre_stat pre_ez pre_bemp new_stat new_ez new_bemp
      = Except.error "NameError: name calculate_ldl_projection is not defined"
    ∧ (step3_checkboxes ldl pre_stat pre_ez pre_bemp new_stat new_ez new_bemp).toOption
        = none
    ∧ wizardTopLevelNames.contains "calculate_ldl_projection" = false := by
  exact ⟨rfl, rfl, by decide⟩

/-- C10: the `vasc` argument handed to `estimate_10y` in
`app_final_wizard.py` equals the number of pre-admission lipid-lowering
therapy selections, and the session state of this variant carries no
vascular-territory field at all. -/
theorem c10_vasc_is_pre_therapy_count (pre_stat : String) (pre_ez pre_bemp : Bool) :
    vasc pre_stat pre_ez pre_bemp = preTherapyCount pre_stat pre_ez pre_bemp
    ∧ wizardDefaultKeys.contains "vasc_cor" = false
    ∧ wizardDefaultKeys.contains "vasc_cer" = false
    ∧ wizardDefaultKeys.contains "vasc_per" = false := by
  refine ⟨?_, by decide, by decide, by decide⟩
  by_cases h : pre_stat = "None" <;> cases pre_ez <;> cases pre_bemp <;>
    simp [vasc, preTherapyCount, h]
